import Mathlib

/-!
# Linux accent-colour accessor (`dynamic_color_plugin.cc`)

A shallow embedding of `packages/dynamic_color/linux/dynamic_color_plugin.cc`.

* C `int` values are mathematical integers kept in the signed 32-bit range by
  `wrap32`; the bit pattern of an `int` is `bits32`.
* A `gdouble` is a finite IEEE-754 binary64 value, given by the rational it
  denotes.  The product `channel * 255` is the exact product rounded to the
  nearest double, ties to even (`round_double`); `lround` rounds halves away
  from zero and gives `LONG_MIN` when the result does not fit `long` (glibc on
  x86-64).  NaN and infinite channels are outside the model.
* GLib / GDK / GTK / Flutter entry points are oracles of an environment `Env`
  (settings store, colour parser) and of the widget (theme tokens).  Every call
  the source makes to one of them is recorded, in order, in a list of `Call`s
  returned next to the value.  Logging (`g_debug`, `g_warning`) is not recorded.
* Reading a key that the schema does not define is a fatal GLib error: the
  process aborts inside `g_settings_get_string`.  A function that can reach
  that read returns an `Option`, `none` meaning that the process aborted and
  nothing was returned; the trace then ends with the read.
-/

namespace DynamicColor

/-! ## Machine integers -/

/-- Conversion of an integer value to C `int` (two's complement, 32 bits). -/
def wrap32 (x : Int) : Int := (x + 2147483648) % 4294967296 - 2147483648

/-- Conversion of an integer value to `int64_t` (two's complement, 64 bits). -/
def wrap64 (x : Int) : Int :=
  (x + 9223372036854775808) % 18446744073709551616 - 9223372036854775808

/-- The 32-bit pattern of an `int`, as a natural number below `2^32`. -/
def bits32 (x : Int) : Nat := (x % 4294967296).toNat

/-- The `int` with a given 32-bit pattern. -/
def ofBits32 (n : Nat) : Int := wrap32 (Int.ofNat n)

/-- `x << n` on `int`, overflow taken modulo `2^32`. -/
def shl32 (x : Int) (n : Nat) : Int := ofBits32 ((bits32 x <<< n) % 4294967296)

/-- `x | y` on `int`. -/
def or32 (x y : Int) : Int := ofBits32 (bits32 x ||| bits32 y)

/-- `#define FALLBACK_COLOR 0xFF673AB7`: the literal does not fit `int`, so its
type is `unsigned int` and its value is `4284955319`. -/
def FALLBACK_COLOR : Int := 0xFF673AB7

/-! ## Colours -/

/-- `GdkRGBA`: four `gdouble` channels, each given by the rational it denotes. -/
structure GdkRGBA where
  red : ℚ
  green : ℚ
  blue : ℚ
  alpha : ℚ
  deriving DecidableEq

/-- Nearest integer, ties to the even one. -/
def round_even (y : ℚ) : Int :=
  if y - (Rat.floor y : ℚ) < 1 / 2 then Rat.floor y
  else if 1 / 2 < y - (Rat.floor y : ℚ) then Rat.floor y + 1
  else if Rat.floor y % 2 = 0 then Rat.floor y
  else Rat.floor y + 1

/-- Exponent of the unit in the last place of the binary64 values around `x`:
53 significant bits, and `2^-1074` throughout the subnormal range. -/
def ulp_exp (x : ℚ) : Int := max (Int.log 2 |x| - 52) (-1074)

/-- Rounding of an exact result to binary64: to nearest, ties to even. A result
beyond the largest double is left as a rational of that size. -/
def round_double (x : ℚ) : ℚ := (round_even (x / 2 ^ ulp_exp x) : ℚ) * 2 ^ ulp_exp x

/-- Nearest integer, halves away from zero. -/
def round_half_away (x : ℚ) : Int :=
  if 0 ≤ x then Rat.floor (x + 1 / 2) else -Rat.floor (-x + 1 / 2)

/-- `lround`: nearest integer, halves away from zero, as a `long`; `LONG_MIN`
when the rounded value does not fit. -/
def lround (x : ℚ) : Int :=
  if -9223372036854775808 ≤ round_half_away x ∧ round_half_away x ≤ 9223372036854775807 then
    round_half_away x
  else -9223372036854775808

/-- `rgba_to_argb` (source lines 23-29). Each product `channel * 255` is a
`double` multiplication; the `long` returned by `lround` is converted to `int`
on assignment. -/
def rgba_to_argb (color : GdkRGBA) : Int :=
  let a := wrap32 (lround (round_double (color.alpha * 255)))
  let r := wrap32 (lround (round_double (color.red * 255)))
  let g := wrap32 (lround (round_double (color.green * 255)))
  let b := wrap32 (lround (round_double (color.blue * 255)))
  or32 (or32 (or32 (shl32 a 24) (shl32 r 16)) (shl32 g 8)) b

/-! ## Environment and effect trace -/

/-- One call made to a collaborator library. -/
inductive Call where
  | g_settings_schema_source_get_default
  | g_settings_schema_source_lookup (schema_id : String)
  | g_settings_new (schema_id : String)
  | g_settings_get_string (key : String)
  | gdk_rgba_parse (spec : String)
  | g_free
  | g_object_unref
  | gtk_widget_get_style_context
  | gtk_style_context_lookup_color (color_name : String)
  deriving DecidableEq

/-- A non-null `GtkWidget*`: what its style context answers for a colour token. -/
structure GtkWidget where
  lookup_color : String → Option GdkRGBA

/-- The settings store and the colour parser, as seen by one call.
`schema_has_key` tells whether a schema defines a key, and
`settings_get_string` is the string a read of a defined key hands back
(`none` for a null pointer). -/
structure Env where
  schema_source : Bool
  schema_lookup : String → Bool
  schema_has_key : String → String → Bool
  settings_new : String → Bool
  settings_get_string : String → Option String
  gdk_rgba_parse : String → Option GdkRGBA

/-- `strlen`: the number of bytes before the terminator. -/
def strlen (s : String) : Nat := s.utf8ByteSize

/-- `const char* schema_id` of `get_accent_color`. -/
def schema_id : String := "org.gnome.desktop.interface"

/-- `const char* key` of `get_accent_color`. -/
def key : String := "accent-color"

/-- `g_settings_get_string` on the settings object of `schema_id`: the stored
string when the schema defines the key, and `none` (a fatal error, the process
aborts) when it does not. -/
def g_settings_get_string (env : Env) (k : String) : Option (Option String) :=
  if env.schema_has_key schema_id k then some (env.settings_get_string k) else none

/-- `get_accent_color_gtk_fallback` (source lines 31-45). Returning
`FALLBACK_COLOR` from a function of type `int` converts it to `int`. -/
def get_accent_color_gtk_fallback (widget : Option GtkWidget) : Int × List Call :=
  match widget with
  | none => (wrap32 FALLBACK_COLOR, [])
  | some w =>
    match w.lookup_color "accent_color" with
    | some color =>
      (rgba_to_argb color,
        [Call.gtk_widget_get_style_context,
         Call.gtk_style_context_lookup_color "accent_color"])
    | none =>
      match w.lookup_color "theme_selected_bg_color" with
      | some color =>
        (rgba_to_argb color,
          [Call.gtk_widget_get_style_context,
           Call.gtk_style_context_lookup_color "accent_color",
           Call.gtk_style_context_lookup_color "theme_selected_bg_color"])
      | none =>
        (wrap32 FALLBACK_COLOR,
          [Call.gtk_widget_get_style_context,
           Call.gtk_style_context_lookup_color "accent_color",
           Call.gtk_style_context_lookup_color "theme_selected_bg_color"])

/-- Source lines 62-74 of `get_accent_color`: what is done with the string read
from the store, starting from `result_color = -1`. -/
def use_accent_color_str (env : Env) (accent_color_str : Option String) :
    Int × List Call :=
  match accent_color_str with
  | none => (-1, [])
  | some s =>
    if strlen s > 0 then
      match env.gdk_rgba_parse s with
      | some parsed_color => (rgba_to_argb parsed_color, [Call.gdk_rgba_parse s, Call.g_free])
      | none => (-1, [Call.gdk_rgba_parse s, Call.g_free])
    else (-1, [Call.g_free])

/-- Source lines 48-85 of `get_accent_color`: the settings-store block, giving
the value of `result_color` at line 87, or `none` when the read at line 60
aborts the process. The test at line 59 is the schema lookup of line 56 again. -/
def get_accent_color_gsettings (env : Env) : Option Int × List Call :=
  if env.schema_source then
    if env.schema_lookup schema_id then
      if env.settings_new schema_id then
        if env.schema_lookup schema_id then
          match g_settings_get_string env key with
          | none =>
            (none,
              [Call.g_settings_schema_source_get_default,
               Call.g_settings_schema_source_lookup schema_id,
               Call.g_settings_new schema_id,
               Call.g_settings_schema_source_lookup schema_id,
               Call.g_settings_get_string key])
          | some accent_color_str =>
            (some (use_accent_color_str env accent_color_str).1,
              [Call.g_settings_schema_source_get_default,
               Call.g_settings_schema_source_lookup schema_id,
               Call.g_settings_new schema_id,
               Call.g_settings_schema_source_lookup schema_id,
               Call.g_settings_get_string key]
                ++ (use_accent_color_str env accent_color_str).2 ++ [Call.g_object_unref])
        else
          (some (-1),
            [Call.g_settings_schema_source_get_default,
             Call.g_settings_schema_source_lookup schema_id,
             Call.g_settings_new schema_id,
             Call.g_settings_schema_source_lookup schema_id,
             Call.g_object_unref])
      else
        (some (-1),
          [Call.g_settings_schema_source_get_default,
           Call.g_settings_schema_source_lookup schema_id,
           Call.g_settings_new schema_id])
    else
      (some (-1),
        [Call.g_settings_schema_source_get_default,
         Call.g_settings_schema_source_lookup schema_id])
  else
    (some (-1), [Call.g_settings_schema_source_get_default])

/-- `get_accent_color` (source lines 47-98); `none` when the process aborted
in the settings block. -/
def get_accent_color (env : Env) (widget : Option GtkWidget) : Option Int × List Call :=
  let s := get_accent_color_gsettings env
  match s.1 with
  | none => (none, s.2)
  | some result_color =>
    let f := if result_color = -1 then get_accent_color_gtk_fallback widget
             else (result_color, [])
    if f.1 = -1 then (some (wrap32 FALLBACK_COLOR), s.2 ++ f.2) else (some f.1, s.2 ++ f.2)

/-- `FlMethodResponse`; a success carries the `int64_t` given to
`fl_value_new_int`. -/
inductive FlMethodResponse where
  | success (result : Int)
  | error (code : String) (message : String)
  | not_implemented
  deriving DecidableEq

/-- `fl_value_new_int (int64_t value)`: the argument is converted to `int64_t`. -/
def fl_value_new_int (value : Int) : Int := wrap64 value

/-- `dynamic_color_plugin_handle_method_call` (source lines 100-121): the
response handed to `fl_method_call_respond`, or `none` when the process
aborted before responding. `view` is what `fl_plugin_registrar_get_view`
returns. -/
def dynamic_color_plugin_handle_method_call (env : Env) (view : Option GtkWidget)
    (method : String) : Option FlMethodResponse × List Call :=
  if method = "getAccentColor" then
    match view with
    | none => (some (FlMethodResponse.success (fl_value_new_int FALLBACK_COLOR)), [])
    | some w =>
      let r := get_accent_color env (some w)
      match r.1 with
      | none => (none, r.2)
      | some argb => (some (FlMethodResponse.success (fl_value_new_int argb)), r.2)
  else
    (some FlMethodResponse.not_implemented, [])

/-! ## Reading a packed colour back -/

/-- Alpha byte `(x >> 24) & 0xFF` of a packed colour. -/
def unpack_a (x : Int) : Nat := (bits32 x >>> 24) &&& 0xFF

/-- Red byte `(x >> 16) & 0xFF` of a packed colour. -/
def unpack_r (x : Int) : Nat := (bits32 x >>> 16) &&& 0xFF

/-- Green byte `(x >> 8) & 0xFF` of a packed colour. -/
def unpack_g (x : Int) : Nat := (bits32 x >>> 8) &&& 0xFF

/-- Blue byte `x & 0xFF` of a packed colour. -/
def unpack_b (x : Int) : Nat := bits32 x &&& 0xFF

/-- A colour whose four channels lie in `[0, 1]`. -/
def GdkRGBA.valid (c : GdkRGBA) : Prop :=
  (0 ≤ c.red ∧ c.red ≤ 1) ∧ (0 ≤ c.green ∧ c.green ≤ 1) ∧
  (0 ≤ c.blue ∧ c.blue ≤ 1) ∧ (0 ≤ c.alpha ∧ c.alpha ≤ 1)

instance (c : GdkRGBA) : Decidable c.valid := by
  unfold GdkRGBA.valid; infer_instance

/-- The 8-bit level of a channel: `lround` of the double product `x * 255`, as
a natural number. -/
def quantise (x : ℚ) : Nat := (lround (round_double (x * 255))).toNat

/-- The colour whose channels are the doubles nearest `r/255`, `g/255`,
`b/255`, `a/255`. -/
def GdkRGBA.ofBytes (r g b a : Nat) : GdkRGBA :=
  { red := round_double ((r : ℚ) / 255), green := round_double ((g : ℚ) / 255),
    blue := round_double ((b : ℚ) / 255), alpha := round_double ((a : ℚ) / 255) }

/-- The double `0.3`. -/
def double_0_3 : ℚ := 5404319552844595 / 18014398509481984

/-- The result of the theme tier followed by the default (source lines 87-97
entered with `result_color = -1`). -/
def theme_then_default (widget : Option GtkWidget) : Int :=
  if (get_accent_color_gtk_fallback widget).1 = -1 then wrap32 FALLBACK_COLOR
  else (get_accent_color_gtk_fallback widget).1

/-! ## Sample environments -/

/-- A widget whose theme defines no colour token. -/
def widget_no_tokens : GtkWidget := { lookup_color := fun _ => none }

/-- A widget whose theme defines `accent_color` only. -/
def widget_accent (c : GdkRGBA) : GtkWidget :=
  { lookup_color := fun n => if n = "accent_color" then some c else none }

/-- A widget whose theme defines `theme_selected_bg_color` only. -/
def widget_selected (c : GdkRGBA) : GtkWidget :=
  { lookup_color := fun n => if n = "theme_selected_bg_color" then some c else none }

/-- A widget whose theme defines both tokens. -/
def widget_both (c d : GdkRGBA) : GtkWidget :=
  { lookup_color := fun n =>
      if n = "accent_color" then some c
      else if n = "theme_selected_bg_color" then some d else none }

/-- No default schema source. -/
def env_no_source : Env :=
  { schema_source := false, schema_lookup := fun _ => false,
    schema_has_key := fun _ _ => false, settings_new := fun _ => false,
    settings_get_string := fun _ => none, gdk_rgba_parse := fun _ => none }

/-- The schema is installed, defines the key, and the store answers `value`
for it; the parser accepts exactly the string `spec`, as the colour `c`. -/
def env_value (value : Option String) (spec : String) (c : GdkRGBA) : Env :=
  { schema_source := true, schema_lookup := fun _ => true,
    schema_has_key := fun _ _ => true, settings_new := fun _ => true,
    settings_get_string := fun _ => value,
    gdk_rgba_parse := fun s => if s = spec then some c else none }

/-- The schema `org.gnome.desktop.interface` is installed but defines no key
`accent-color`; `answer` is whatever a read of that key would hand back. -/
def env_key_undefined (answer : Option String) : Env :=
  { schema_source := true, schema_lookup := fun _ => true,
    schema_has_key := fun _ _ => false, settings_new := fun _ => true,
    settings_get_string := fun _ => answer, gdk_rgba_parse := fun _ => none }

/-- Opaque white: every channel is `1`. -/
def white : GdkRGBA := GdkRGBA.ofBytes 255 255 255 255

/-- Opaque blue. -/
def blue : GdkRGBA := GdkRGBA.ofBytes 0 0 255 255

/-- The store holds `"white"` and the parser reads it as opaque white. -/
def env_white : Env := env_value (some "white") "white" white

theorem wrap32_range (x : Int) : -2147483648 ≤ wrap32 x ∧ wrap32 x ≤ 2147483647 := by
  unfold wrap32; omega

theorem wrap32_of_range {x : Int} (h1 : -2147483648 ≤ x) (h2 : x ≤ 2147483647) :
    wrap32 x = x := by
  unfold wrap32; omega

theorem wrap64_of_range {x : Int} (h1 : -9223372036854775808 ≤ x)
    (h2 : x ≤ 9223372036854775807) : wrap64 x = x := by
  unfold wrap64; omega

theorem bits32_lt (x : Int) : bits32 x < 4294967296 := by
  unfold bits32; omega

theorem bits32_ofBits32 {n : Nat} (h : n < 4294967296) : bits32 (ofBits32 n) = n := by
  unfold bits32 ofBits32 wrap32
  simp only [Int.ofNat_eq_coe]
  omega

theorem ofBits32_range (n : Nat) :
    -2147483648 ≤ ofBits32 n ∧ ofBits32 n ≤ 2147483647 :=
  wrap32_range _

theorem bits32_natCast {n : Nat} (h : n < 4294967296) : bits32 (n : Int) = n := by
  unfold bits32; omega

theorem or_low (i a b : Nat) (h : b < 2 ^ i) : a * 2 ^ i ||| b = a * 2 ^ i + b := by
  rw [Nat.mul_comm]
  exact (Nat.mul_add_lt_is_or h a).symm

theorem or_bytes (a r g b : Nat) (hr : r ≤ 255) (hg : g ≤ 255) (hb : b ≤ 255) :
    (a * 16777216 ||| r * 65536) ||| g * 256 ||| b
      = a * 16777216 + r * 65536 + g * 256 + b := by
  have h1 : a * 16777216 ||| r * 65536 = a * 16777216 + r * 65536 :=
    or_low 24 a (r * 65536) (by norm_num; omega)
  have h2 : (a * 16777216 + r * 65536) ||| g * 256 = a * 16777216 + r * 65536 + g * 256 := by
    have e : a * 16777216 + r * 65536 = (a * 256 + r) * 2 ^ 16 := by ring
    rw [e]
    exact or_low 16 (a * 256 + r) (g * 256) (by norm_num; omega)
  have h3 : (a * 16777216 + r * 65536 + g * 256) ||| b
      = a * 16777216 + r * 65536 + g * 256 + b := by
    have e : a * 16777216 + r * 65536 + g * 256 = (a * 65536 + r * 256 + g) * 2 ^ 8 := by ring
    rw [e]
    exact or_low 8 (a * 65536 + r * 256 + g) b (by norm_num; omega)
  rw [h1, h2, h3]

/-- Shifting a byte left by `n ≤ 24` bits stays below `2^32`. -/
theorem bits32_shl32_byte (q n : Nat) (hq : q ≤ 255) (hn : n ≤ 24) :
    bits32 (shl32 (wrap32 (q : Int)) n) = q * 2 ^ n := by
  have hw : wrap32 (q : Int) = q := wrap32_of_range (by omega) (by omega)
  have hp : 2 ^ n ≤ 2 ^ 24 := Nat.pow_le_pow_right (by norm_num) hn
  have hlt : q * 2 ^ n < 4294967296 := by
    calc q * 2 ^ n ≤ 255 * 2 ^ 24 := Nat.mul_le_mul hq hp
      _ < 4294967296 := by norm_num
  unfold shl32
  rw [hw, bits32_natCast (by omega), Nat.shiftLeft_eq, Nat.mod_eq_of_lt hlt,
    bits32_ofBits32 hlt]

/-- The packing step of `rgba_to_argb` on four bytes. -/
theorem pack_bytes (a r g b : Nat) (ha : a ≤ 255) (hr : r ≤ 255) (hg : g ≤ 255)
    (hb : b ≤ 255) :
    bits32 (or32 (or32 (or32 (shl32 (wrap32 (a : Int)) 24) (shl32 (wrap32 (r : Int)) 16))
        (shl32 (wrap32 (g : Int)) 8)) (wrap32 (b : Int)))
      = a * 16777216 + r * 65536 + g * 256 + b := by
  have hb32 : bits32 (wrap32 (b : Int)) = b := by
    rw [wrap32_of_range (by omega) (by omega), bits32_natCast (by omega)]
  have e1 : bits32 (or32 (shl32 (wrap32 (a : Int)) 24) (shl32 (wrap32 (r : Int)) 16))
      = a * 16777216 + r * 65536 := by
    unfold or32
    rw [bits32_shl32_byte a 24 ha (by norm_num), bits32_shl32_byte r 16 hr (by norm_num)]
    have := or_low 24 a (r * 2 ^ 16) (by norm_num; omega)
    rw [this]
    norm_num
    exact bits32_ofBits32 (by omega)
  have e2 : bits32 (or32 (or32 (shl32 (wrap32 (a : Int)) 24) (shl32 (wrap32 (r : Int)) 16))
        (shl32 (wrap32 (g : Int)) 8)) = a * 16777216 + r * 65536 + g * 256 := by
    unfold or32 at e1 ⊢
    rw [e1, bits32_shl32_byte g 8 hg (by norm_num)]
    have e : a * 16777216 + r * 65536 = (a * 256 + r) * 2 ^ 16 := by ring
    have := or_low 16 (a * 256 + r) (g * 2 ^ 8) (by norm_num; omega)
    rw [e, this]
    norm_num
    rw [bits32_ofBits32 (by omega)]
  unfold or32 at e2 ⊢
  rw [e2, hb32]
  have e : a * 16777216 + r * 65536 + g * 256 = (a * 65536 + r * 256 + g) * 2 ^ 8 := by ring
  have := or_low 8 (a * 65536 + r * 256 + g) b (by norm_num; omega)
  rw [e, this]
  norm_num
  rw [bits32_ofBits32 (by omega)]

/-! ## Rounding lemmas -/

theorem round_even_floor (y : ℚ) : round_even y = ⌊y⌋ ∨ round_even y = ⌊y⌋ + 1 := by
  unfold round_even
  have : Rat.floor y = ⌊y⌋ := rfl
  simp only [this]
  split_ifs <;> simp

theorem round_even_err (y : ℚ) : |(round_even y : ℚ) - y| ≤ 1 / 2 := by
  have h1 := Int.floor_le y
  have h2 := Int.lt_floor_add_one y
  have hf : Rat.floor y = ⌊y⌋ := rfl
  unfold round_even
  simp only [hf]
  rw [abs_le]
  split_ifs with a b c
  · constructor <;> linarith
  · push_cast; constructor <;> linarith
  · push_cast at a b ⊢; constructor <;> linarith
  · push_cast at a b ⊢; constructor <;> linarith

theorem round_even_le (y : ℚ) (n : Int) (h : y ≤ n) : round_even y ≤ n := by
  have hc : ⌊y⌋ ≤ n := by
    have := Int.floor_le y
    exact_mod_cast (Int.floor_le_iff.mpr (by linarith [Int.floor_le y] : y < n + 1) )
  rcases round_even_floor y with e | e
  · rw [e]; exact hc
  · rw [e]
    by_cases hy : (⌊y⌋ : ℚ) = y
    · -- y is an integer: round_even y = floor y, contradiction with e unless ...
      exfalso
      have hf : Rat.floor y = ⌊y⌋ := rfl
      unfold round_even at e
      simp only [hf, hy, sub_self] at e
      norm_num at e
    · have hlt : (⌊y⌋ : ℚ) < y := lt_of_le_of_ne (Int.floor_le y) hy
      have : (⌊y⌋ : ℚ) < n := lt_of_lt_of_le hlt h
      have : ⌊y⌋ < n := by exact_mod_cast this
      omega

theorem round_even_nonneg (y : ℚ) (h : 0 ≤ y) : 0 ≤ round_even y := by
  have : 0 ≤ ⌊y⌋ := Int.floor_nonneg.mpr h
  rcases round_even_floor y with e | e <;> omega

theorem round_even_eq (y : ℚ) (n : Int) (h1 : (n : ℚ) - 1 / 2 < y) (h2 : y < (n : ℚ) + 1 / 2) :
    round_even y = n := by
  have he := round_even_err y
  rw [abs_le] at he
  have a : ((round_even y : Int) : ℚ) < (n : ℚ) + 1 := by linarith
  have b : (n : ℚ) - 1 < ((round_even y : Int) : ℚ) := by linarith
  have a' : round_even y < n + 1 := by exact_mod_cast a
  have b' : n - 1 < round_even y := by exact_mod_cast b
  omega


theorem two_zpow_pos (p : Int) : (0 : ℚ) < 2 ^ p := zpow_pos (by norm_num) p

theorem ulp_exp_le (x : ℚ) (m : Int) (hm : 0 ≤ m) (hx : |x| < 2 ^ (m + 1)) :
    ulp_exp x ≤ m - 52 := by
  unfold ulp_exp
  have hl : Int.log 2 |x| ≤ m := by
    rcases (abs_nonneg x).eq_or_lt with h0 | hpos
    · rw [← h0, Int.log_zero_right]
      exact hm
    · have := (Int.lt_zpow_iff_log_lt (b := 2) (by norm_num) hpos).mp (by exact_mod_cast hx)
      omega
  exact max_le (by omega) (by omega)

theorem round_double_err (x : ℚ) :
    |round_double x - x| ≤ 2 ^ ulp_exp x / 2 := by
  unfold round_double
  have hp := two_zpow_pos (ulp_exp x)
  have he := round_even_err (x / 2 ^ ulp_exp x)
  have e : (round_even (x / 2 ^ ulp_exp x) : ℚ) * 2 ^ ulp_exp x - x
      = ((round_even (x / 2 ^ ulp_exp x) : ℚ) - x / 2 ^ ulp_exp x) * 2 ^ ulp_exp x := by
    field_simp
  rw [e, abs_mul, abs_of_pos hp]
  calc _ ≤ 1 / 2 * 2 ^ ulp_exp x := mul_le_mul_of_nonneg_right he hp.le
    _ = 2 ^ ulp_exp x / 2 := by ring


theorem round_double_err_le (x : ℚ) (m : Int) (hm : 0 ≤ m) (hx : |x| < 2 ^ (m + 1)) :
    |round_double x - x| ≤ 2 ^ (m - 53) := by
  have h1 := round_double_err x
  have h2 : (2 : ℚ) ^ ulp_exp x ≤ 2 ^ (m - 52) :=
    zpow_le_zpow_right₀ (by norm_num) (ulp_exp_le x m hm hx)
  have h3 : (2 : ℚ) ^ (m - 52) = 2 * 2 ^ (m - 53) := by
    rw [show m - 52 = (m - 53) + 1 by ring, zpow_add_one₀ (by norm_num)]
    ring
  linarith

theorem round_double_nonneg (x : ℚ) (h : 0 ≤ x) : 0 ≤ round_double x := by
  unfold round_double
  have hp := two_zpow_pos (ulp_exp x)
  have : 0 ≤ round_even (x / 2 ^ ulp_exp x) := round_even_nonneg _ (div_nonneg h hp.le)
  have : (0 : ℚ) ≤ (round_even (x / 2 ^ ulp_exp x) : ℚ) := by exact_mod_cast this
  positivity

/-- An integer below `2^8` is a multiple of every unit in the last place that
occurs below it, so rounding never goes past it. -/
theorem round_double_le_nat (x : ℚ) (n : Nat) (h0 : 0 ≤ x) (hx : x ≤ n) (hn : n < 256) :
    round_double x ≤ n := by
  have hn' : (n : ℚ) < 256 := by exact_mod_cast hn
  have habs : |x| < 2 ^ ((7 : Int) + 1) := by
    rw [abs_of_nonneg h0]
    norm_num
    linarith
  have hp : ulp_exp x ≤ 7 - 52 := ulp_exp_le x 7 (by norm_num) habs
  have hpos := two_zpow_pos (ulp_exp x)
  obtain ⟨k, hk⟩ : ∃ k : Nat, ulp_exp x = -(k : Int) := ⟨(-ulp_exp x).toNat, by omega⟩
  have hN : (n : ℚ) / 2 ^ ulp_exp x = ((n * 2 ^ k : Nat) : Int) := by
    rw [hk, zpow_neg, zpow_natCast]
    push_cast
    field_simp
  have hy : x / 2 ^ ulp_exp x ≤ ((n * 2 ^ k : Nat) : Int) := by
    rw [← hN]
    exact div_le_div_of_nonneg_right hx hpos.le
  have hr := round_even_le _ _ hy
  unfold round_double
  have hr' : (round_even (x / 2 ^ ulp_exp x) : ℚ) ≤ (n : ℚ) / 2 ^ ulp_exp x := by
    rw [hN]
    exact_mod_cast hr
  calc (round_even (x / 2 ^ ulp_exp x) : ℚ) * 2 ^ ulp_exp x
      ≤ (n : ℚ) / 2 ^ ulp_exp x * 2 ^ ulp_exp x := mul_le_mul_of_nonneg_right hr' hpos.le
    _ = n := by field_simp

theorem round_half_away_eq (z : ℚ) (k : Nat) (h1 : (k : ℚ) - 1 / 2 < z) (h2 : z < (k : ℚ) + 1 / 2)
    (h0 : 0 ≤ z) : round_half_away z = k := by
  unfold round_half_away
  rw [if_pos h0]
  show ⌊z + 1 / 2⌋ = (k : Int)
  rw [Int.floor_eq_iff]
  push_cast
  constructor <;> linarith

theorem lround_of_small (z : ℚ) (h : -9223372036854775808 ≤ round_half_away z ∧
    round_half_away z ≤ 9223372036854775807) : lround z = round_half_away z := by
  unfold lround
  rw [if_pos h]

/-- The 8-bit level of the double nearest `k / 255`. -/
theorem lround_level (k : Nat) (hk : k ≤ 255) :
    lround (round_double (round_double ((k : ℚ) / 255) * 255)) = k := by
  have hkq : (k : ℚ) ≤ 255 := by exact_mod_cast hk
  have hk0 : (0 : ℚ) ≤ k := by positivity
  have hx0 : (0 : ℚ) ≤ (k : ℚ) / 255 := by positivity
  have hx1 : (k : ℚ) / 255 ≤ 1 := by rw [div_le_one (by norm_num)]; exact hkq
  have hc0 := round_double_nonneg _ hx0
  have hc1 : round_double ((k : ℚ) / 255) ≤ ((1 : Nat) : ℚ) :=
    round_double_le_nat _ 1 hx0 (by simpa using hx1) (by norm_num)
  have e1 := round_double_err_le ((k : ℚ) / 255) 0 (by norm_num)
    (by rw [abs_of_nonneg hx0]; norm_num; linarith)
  rw [abs_le] at e1
  norm_num at e1 hc1
  have hp0 : 0 ≤ round_double ((k : ℚ) / 255) * 255 := by positivity
  have e2 := round_double_err_le (round_double ((k : ℚ) / 255) * 255) 7 (by norm_num)
    (by rw [abs_of_nonneg hp0]; norm_num; linarith)
  rw [abs_le] at e2
  norm_num at e2
  have hz0 := round_double_nonneg _ hp0
  have hr := round_half_away_eq (round_double (round_double ((k : ℚ) / 255) * 255)) k
    (by linarith) (by linarith) hz0
  rw [lround_of_small _ (by rw [hr]; omega), hr]


theorem lround_channel {x : ℚ} (h0 : 0 ≤ x) (h1 : x ≤ 1) :
    lround (round_double (x * 255)) = (quantise x : Int) ∧ quantise x ≤ 255 := by
  have hx : (0 : ℚ) ≤ x * 255 := by positivity
  have hz0 := round_double_nonneg _ hx
  have hz1 : round_double (x * 255) ≤ ((255 : Nat) : ℚ) :=
    round_double_le_nat _ 255 hx (by push_cast; linarith) (by norm_num)
  push_cast at hz1
  have hr : round_half_away (round_double (x * 255)) = ⌊round_double (x * 255) + 1 / 2⌋ := by
    unfold round_half_away
    rw [if_pos hz0]
    rfl
  have hnn : 0 ≤ ⌊round_double (x * 255) + 1 / 2⌋ := Int.floor_nonneg.mpr (by linarith)
  have hle : ⌊round_double (x * 255) + 1 / 2⌋ < 256 := by
    rw [Int.floor_lt]
    push_cast
    linarith
  have hl : lround (round_double (x * 255)) = ⌊round_double (x * 255) + 1 / 2⌋ := by
    rw [lround_of_small _ (by rw [hr]; omega), hr]
  unfold quantise
  rw [hl]
  omega

theorem ulp_exp_of_binade (x : ℚ) (e : Int) (hlo : 2 ^ e ≤ |x|) (hhi : |x| < 2 ^ (e + 1))
    (he : -1022 ≤ e) : ulp_exp x = e - 52 := by
  have hpos : 0 < |x| := lt_of_lt_of_le (two_zpow_pos e) hlo
  have h1 := (Int.zpow_le_iff_le_log (b := 2) (by norm_num) hpos).mp (by exact_mod_cast hlo)
  have h2 := (Int.lt_zpow_iff_log_lt (b := 2) (by norm_num) hpos).mp (by exact_mod_cast hhi)
  unfold ulp_exp
  have : Int.log 2 |x| = e := by omega
  rw [this]
  exact max_eq_left (by omega)

theorem round_double_0_3 : round_double double_0_3 = double_0_3 := by
  have hu : ulp_exp double_0_3 = -2 - 52 :=
    ulp_exp_of_binade _ (-2) (by unfold double_0_3; norm_num [abs_of_pos])
      (by unfold double_0_3; norm_num [abs_of_pos]) (by norm_num)
  unfold round_double
  rw [hu]
  have : round_even (double_0_3 / 2 ^ ((-2 : Int) - 52)) = 5404319552844595 :=
    round_even_eq _ _ (by unfold double_0_3; norm_num) (by unfold double_0_3; norm_num)
  rw [this]
  unfold double_0_3
  norm_num

theorem round_double_0_3_mul : round_double (double_0_3 * 255) = 153 / 2 := by
  have hu : ulp_exp (double_0_3 * 255) = 6 - 52 :=
    ulp_exp_of_binade _ 6 (by unfold double_0_3; norm_num [abs_of_pos])
      (by unfold double_0_3; norm_num [abs_of_pos]) (by norm_num)
  unfold round_double
  rw [hu]
  have : round_even (double_0_3 * 255 / 2 ^ ((6 : Int) - 52)) = 5383208929591296 :=
    round_even_eq _ _ (by unfold double_0_3; norm_num) (by unfold double_0_3; norm_num)
  rw [this]
  norm_num

theorem lround_0_3 : lround (round_double (double_0_3 * 255)) = 77 := by
  rw [round_double_0_3_mul]
  have hr : round_half_away (153 / 2) = 77 := by
    unfold round_half_away
    rw [if_pos (by norm_num)]
    show ⌊(153 / 2 : ℚ) + 1 / 2⌋ = 77
    rw [Int.floor_eq_iff]
    norm_num
  rw [lround_of_small _ (by rw [hr]; decide), hr]

theorem exact_0_3 : round_half_away (double_0_3 * 255) = 76 := by
  unfold round_half_away
  rw [if_pos (by unfold double_0_3; norm_num)]
  show ⌊double_0_3 * 255 + 1 / 2⌋ = 76
  rw [Int.floor_eq_iff]
  unfold double_0_3
  norm_num


/-! ## Packing lemmas -/

theorem ofBytes_valid (r g b a : Nat) (hr : r ≤ 255) (hg : g ≤ 255) (hb : b ≤ 255)
    (ha : a ≤ 255) : (GdkRGBA.ofBytes r g b a).valid := by
  have key : ∀ k : Nat, k ≤ 255 →
      0 ≤ round_double ((k : ℚ) / 255) ∧ round_double ((k : ℚ) / 255) ≤ 1 := by
    intro k hk
    have hkq : (k : ℚ) ≤ 255 := by exact_mod_cast hk
    have hx0 : (0 : ℚ) ≤ (k : ℚ) / 255 := by positivity
    have hx1 : (k : ℚ) / 255 ≤ 1 := by rw [div_le_one (by norm_num)]; exact hkq
    have h1 : round_double ((k : ℚ) / 255) ≤ ((1 : Nat) : ℚ) :=
      round_double_le_nat _ 1 hx0 (by simpa using hx1) (by norm_num)
    exact ⟨round_double_nonneg _ hx0, by simpa using h1⟩
  unfold GdkRGBA.valid GdkRGBA.ofBytes
  exact ⟨key r hr, key g hg, key b hb, key a ha⟩

theorem quantise_level (k : Nat) (hk : k ≤ 255) :
    quantise (round_double ((k : ℚ) / 255)) = k := by
  unfold quantise
  rw [lround_level k hk]
  simp

/-- The bit pattern `rgba_to_argb` produces for a colour with channels in `[0, 1]`. -/
theorem bits32_rgba_to_argb (c : GdkRGBA) (h : c.valid) :
    bits32 (rgba_to_argb c)
      = quantise c.alpha * 16777216 + quantise c.red * 65536
        + quantise c.green * 256 + quantise c.blue := by
  obtain ⟨⟨r0, r1⟩, ⟨g0, g1⟩, ⟨b0, b1⟩, ⟨a0, a1⟩⟩ := h
  obtain ⟨ea, ha⟩ := lround_channel a0 a1
  obtain ⟨er, hr⟩ := lround_channel r0 r1
  obtain ⟨eg, hg⟩ := lround_channel g0 g1
  obtain ⟨eb, hb⟩ := lround_channel b0 b1
  unfold rgba_to_argb
  simp only [ea, er, eg, eb]
  exact pack_bytes _ _ _ _ ha hr hg hb

theorem rgba_to_argb_range (c : GdkRGBA) :
    -2147483648 ≤ rgba_to_argb c ∧ rgba_to_argb c ≤ 2147483647 := by
  unfold rgba_to_argb
  simp only
  unfold or32
  exact ofBits32_range _

theorem eq_of_bits32_eq {x y : Int} (hx : -2147483648 ≤ x ∧ x ≤ 2147483647)
    (hy : -2147483648 ≤ y ∧ y ≤ 2147483647) (h : bits32 x = bits32 y) : x = y := by
  unfold bits32 at h
  omega

/-- The value `rgba_to_argb` returns for a colour with channels in `[0, 1]`. -/
theorem rgba_to_argb_valid (c : GdkRGBA) (h : c.valid) :
    rgba_to_argb c
      = ofBits32 (quantise c.alpha * 16777216 + quantise c.red * 65536
        + quantise c.green * 256 + quantise c.blue) := by
  obtain ⟨⟨r0, r1⟩, ⟨g0, g1⟩, ⟨b0, b1⟩, ⟨a0, a1⟩⟩ := id h
  have ha := (lround_channel a0 a1).2
  have hr := (lround_channel r0 r1).2
  have hg := (lround_channel g0 g1).2
  have hb := (lround_channel b0 b1).2
  apply eq_of_bits32_eq (rgba_to_argb_range c) (ofBits32_range _)
  rw [bits32_rgba_to_argb c h, bits32_ofBits32 (by omega)]

theorem rgba_to_argb_ofBytes (r g b a : Nat) (hr : r ≤ 255) (hg : g ≤ 255) (hb : b ≤ 255)
    (ha : a ≤ 255) :
    rgba_to_argb (GdkRGBA.ofBytes r g b a)
      = ofBits32 (a * 16777216 + r * 65536 + g * 256 + b) := by
  rw [rgba_to_argb_valid _ (ofBytes_valid r g b a hr hg hb ha)]
  simp only [GdkRGBA.ofBytes, quantise_level _ hr, quantise_level _ hg, quantise_level _ hb,
    quantise_level _ ha]

theorem unpack_of_bits (x : Int) (a r g b : Nat) (ha : a ≤ 255) (hr : r ≤ 255)
    (hg : g ≤ 255) (hb : b ≤ 255)
    (h : bits32 x = a * 16777216 + r * 65536 + g * 256 + b) :
    unpack_a x = a ∧ unpack_r x = r ∧ unpack_g x = g ∧ unpack_b x = b := by
  have m : ∀ n : Nat, n &&& 0xFF = n % 256 := fun n => Nat.and_pow_two_sub_one_eq_mod n 8
  unfold unpack_a unpack_r unpack_g unpack_b
  simp only [m, Nat.shiftRight_eq_div_pow, h]
  norm_num
  omega

/-- The bytes of `rgba_to_argb` for a colour with channels in `[0, 1]` are the
levels of its channels. -/
theorem unpack_rgba_to_argb (c : GdkRGBA) (h : c.valid) :
    (lround (round_double (c.alpha * 255)) = (quantise c.alpha : Int) ∧ quantise c.alpha ≤ 255) ∧
    (lround (round_double (c.red * 255)) = (quantise c.red : Int) ∧ quantise c.red ≤ 255) ∧
    (lround (round_double (c.green * 255)) = (quantise c.green : Int) ∧
      quantise c.green ≤ 255) ∧
    (lround (round_double (c.blue * 255)) = (quantise c.blue : Int) ∧ quantise c.blue ≤ 255) ∧
    (unpack_a (rgba_to_argb c) = quantise c.alpha ∧
     unpack_r (rgba_to_argb c) = quantise c.red ∧
     unpack_g (rgba_to_argb c) = quantise c.green ∧
     unpack_b (rgba_to_argb c) = quantise c.blue) := by
  obtain ⟨⟨r0, r1⟩, ⟨g0, g1⟩, ⟨b0, b1⟩, ⟨a0, a1⟩⟩ := id h
  have ha := lround_channel a0 a1
  have hr := lround_channel r0 r1
  have hg := lround_channel g0 g1
  have hb := lround_channel b0 b1
  exact ⟨ha, hr, hg, hb,
    unpack_of_bits _ _ _ _ _ ha.2 hr.2 hg.2 hb.2 (bits32_rgba_to_argb c h)⟩

theorem strlen_pos_iff (s : String) : 0 < strlen s ↔ s ≠ "" := by
  unfold strlen
  constructor
  · intro h e
    rw [e] at h
    exact absurd h (by decide)
  · intro h
    rcases s with ⟨cs⟩
    cases cs with
    | nil => exact absurd rfl h
    | cons c cs =>
      have : String.utf8ByteSize ⟨c :: cs⟩ = String.utf8ByteSize ⟨cs⟩ + c.utf8Size := by
        simp [String.utf8ByteSize, String.utf8ByteSize.go]
      rw [this]
      have := Char.utf8Size_pos c
      omega

theorem rgba_to_argb_white : rgba_to_argb white = -1 := by
  unfold white
  rw [rgba_to_argb_ofBytes _ _ _ _ (by decide) (by decide) (by decide) (by decide)]
  decide

theorem rgba_to_argb_blue : rgba_to_argb blue = -16776961 := by
  unfold blue
  rw [rgba_to_argb_ofBytes _ _ _ _ (by decide) (by decide) (by decide) (by decide)]
  decide

theorem gsettings_schema_absent (env : Env)
    (h : env.schema_source = false ∨ env.schema_lookup schema_id = false) :
    (get_accent_color_gsettings env).1 = some (-1) ∧
    ((get_accent_color_gsettings env).2 = [Call.g_settings_schema_source_get_default] ∨
     (get_accent_color_gsettings env).2 =
       [Call.g_settings_schema_source_get_default,
        Call.g_settings_schema_source_lookup schema_id]) := by
  unfold get_accent_color_gsettings
  rcases h with h | h
  · simp [h]
  · cases hs : env.schema_source <;> simp [h]

theorem gsettings_schema_present (env : Env) (v : Option String)
    (hsrc : env.schema_source = true) (hlk : env.schema_lookup schema_id = true)
    (hnew : env.settings_new schema_id = true)
    (hread : g_settings_get_string env key = some v) :
    get_accent_color_gsettings env =
      (some (use_accent_color_str env v).1,
        [Call.g_settings_schema_source_get_default,
         Call.g_settings_schema_source_lookup schema_id,
         Call.g_settings_new schema_id,
         Call.g_settings_schema_source_lookup schema_id,
         Call.g_settings_get_string key]
          ++ (use_accent_color_str env v).2 ++ [Call.g_object_unref]) := by
  unfold get_accent_color_gsettings
  simp [hsrc, hlk, hnew, hread]

theorem gsettings_abort (env : Env) (hsrc : env.schema_source = true)
    (hlk : env.schema_lookup schema_id = true) (hnew : env.settings_new schema_id = true)
    (hread : g_settings_get_string env key = none) :
    get_accent_color_gsettings env =
      (none,
        [Call.g_settings_schema_source_get_default,
         Call.g_settings_schema_source_lookup schema_id,
         Call.g_settings_new schema_id,
         Call.g_settings_schema_source_lookup schema_id,
         Call.g_settings_get_string key]) := by
  unfold get_accent_color_gsettings
  simp [hsrc, hlk, hnew, hread]

theorem gsettings_no_settings (env : Env) (hsrc : env.schema_source = true)
    (hlk : env.schema_lookup schema_id = true) (hnew : env.settings_new schema_id = false) :
    get_accent_color_gsettings env =
      (some (-1), [Call.g_settings_schema_source_get_default,
            Call.g_settings_schema_source_lookup schema_id,
            Call.g_settings_new schema_id]) := by
  unfold get_accent_color_gsettings
  simp [hsrc, hlk, hnew]

theorem use_accent_color_str_parsed (env : Env) (s : String) (c : GdkRGBA) (hne : s ≠ "")
    (hp : env.gdk_rgba_parse s = some c) :
    use_accent_color_str env (some s) = (rgba_to_argb c, [Call.gdk_rgba_parse s, Call.g_free]) := by
  unfold use_accent_color_str
  simp [(strlen_pos_iff s).mpr hne, hp]

theorem use_accent_color_str_unusable (env : Env) (v : Option String)
    (h : v = none ∨ v = some "" ∨ ∃ s, v = some s ∧ env.gdk_rgba_parse s = none) :
    (use_accent_color_str env v).1 = -1 := by
  unfold use_accent_color_str
  rcases h with h | h | ⟨s, h, hp⟩
  · simp [h]
  · subst h
    have : ¬ (strlen "" > 0) := by decide
    simp [this]
  · subst h
    by_cases hl : strlen s > 0 <;> simp [hl, hp]

theorem use_accent_color_str_no_parse (env : Env) (v : Option String)
    (h : v = none ∨ v = some "") (s : String) :
    Call.gdk_rgba_parse s ∉ (use_accent_color_str env v).2 := by
  unfold use_accent_color_str
  rcases h with h | h
  · simp [h]
  · subst h
    have : ¬ (strlen "" > 0) := by decide
    simp [this]

theorem get_accent_color_of_abort (env : Env) (widget : Option GtkWidget)
    (h : (get_accent_color_gsettings env).1 = none) :
    get_accent_color env widget = (none, (get_accent_color_gsettings env).2) := by
  unfold get_accent_color
  simp only [h]

theorem get_accent_color_of_sentinel (env : Env) (widget : Option GtkWidget)
    (h : (get_accent_color_gsettings env).1 = some (-1)) :
    (get_accent_color env widget).1 = some (theme_then_default widget) ∧
    (get_accent_color env widget).2
      = (get_accent_color_gsettings env).2 ++ (get_accent_color_gtk_fallback widget).2 := by
  unfold get_accent_color theme_then_default
  simp only [h, if_true]
  by_cases hf : (get_accent_color_gtk_fallback widget).1 = -1 <;> simp [hf]

theorem get_accent_color_of_colour (env : Env) (widget : Option GtkWidget) (v : Int)
    (h : (get_accent_color_gsettings env).1 = some v) (hv : v ≠ -1) :
    get_accent_color env widget = (some v, (get_accent_color_gsettings env).2) := by
  unfold get_accent_color
  simp [h, hv]

theorem wrap32_FALLBACK_COLOR : wrap32 FALLBACK_COLOR = -10011977 := by decide

theorem theme_then_default_ne_sentinel (widget : Option GtkWidget) :
    theme_then_default widget ≠ -1 := by
  unfold theme_then_default
  by_cases hf : (get_accent_color_gtk_fallback widget).1 = -1
  · rw [if_pos hf, wrap32_FALLBACK_COLOR]; decide
  · rw [if_neg hf]; exact hf

theorem gtk_fallback_range (widget : Option GtkWidget) :
    -2147483648 ≤ (get_accent_color_gtk_fallback widget).1 ∧
    (get_accent_color_gtk_fallback widget).1 ≤ 2147483647 := by
  unfold get_accent_color_gtk_fallback
  cases widget with
  | none => exact wrap32_range _
  | some w =>
    simp only
    cases w.lookup_color "accent_color" with
    | some c => exact rgba_to_argb_range c
    | none =>
      cases w.lookup_color "theme_selected_bg_color" with
      | some c => exact rgba_to_argb_range c
      | none => exact wrap32_range _

theorem use_accent_color_str_range (env : Env) (v : Option String) :
    -2147483648 ≤ (use_accent_color_str env v).1 ∧
    (use_accent_color_str env v).1 ≤ 2147483647 := by
  unfold use_accent_color_str
  cases v with
  | none => simp
  | some s =>
    simp only
    by_cases hl : strlen s > 0
    · rw [if_pos hl]
      cases env.gdk_rgba_parse s with
      | some c => exact rgba_to_argb_range c
      | none => simp
    · rw [if_neg hl]; simp

theorem gsettings_range (env : Env) (v : Int)
    (h : (get_accent_color_gsettings env).1 = some v) :
    -2147483648 ≤ v ∧ v ≤ 2147483647 := by
  unfold get_accent_color_gsettings at h
  split_ifs at h
  · cases hr : g_settings_get_string env key with
    | none => simp [hr] at h
    | some s =>
      simp only [hr, Option.some.injEq] at h
      rw [← h]
      exact use_accent_color_str_range env s
  all_goals
    simp only [Option.some.injEq] at h
    omega

/-- Whatever `get_accent_color` returns is an `int`. -/
theorem get_accent_color_range (env : Env) (widget : Option GtkWidget) (v : Int)
    (h : (get_accent_color env widget).1 = some v) :
    -2147483648 ≤ v ∧ v ≤ 2147483647 := by
  cases hs : (get_accent_color_gsettings env).1 with
  | none =>
    rw [get_accent_color_of_abort env widget hs] at h
    simp at h
  | some r =>
    by_cases hr : r = -1
    · subst hr
      rw [(get_accent_color_of_sentinel env widget hs).1] at h
      simp only [Option.some.injEq] at h
      rw [← h]
      unfold theme_then_default
      split_ifs
      · exact wrap32_range _
      · exact gtk_fallback_range widget
    · rw [get_accent_color_of_colour env widget r hs hr] at h
      simp only [Option.some.injEq] at h
      rw [← h]
      exact gsettings_range env r hs

/-- On the view-present branch a payload, when there is one, is an `int` value. -/
theorem view_present_payload_in_int32 (env : Env) (w : GtkWidget) (v : Int)
    (h : (dynamic_color_plugin_handle_method_call env (some w) "getAccentColor").1
        = some (FlMethodResponse.success v)) :
    -2147483648 ≤ v ∧ v ≤ 2147483647 := by
  unfold dynamic_color_plugin_handle_method_call at h
  simp only [if_true] at h
  cases hr : (get_accent_color env (some w)).1 with
  | none => simp [hr] at h
  | some r =>
    have hrange := get_accent_color_range env (some w) r hr
    simp only [hr, Option.some.injEq, FlMethodResponse.success.injEq] at h
    unfold fl_value_new_int at h
    rw [wrap64_of_range (by omega) (by omega)] at h
    omega

/-- The dispatch of the handler: a response other than "not implemented" is
given only to `getAccentColor`, any response to `getAccentColor` is a success,
and no error response is ever built. -/
theorem handle_method_call_dispatch (env : Env) (view : Option GtkWidget) (method : String) :
    (method ≠ "getAccentColor" →
      dynamic_color_plugin_handle_method_call env view method
        = (some FlMethodResponse.not_implemented, [])) ∧
    (method = "getAccentColor" → ∀ r,
      (dynamic_color_plugin_handle_method_call env view method).1 = some r →
      ∃ v, r = FlMethodResponse.success v) ∧
    (∀ code message, (dynamic_color_plugin_handle_method_call env view method).1
        ≠ some (FlMethodResponse.error code message)) := by
  unfold dynamic_color_plugin_handle_method_call
  by_cases h : method = "getAccentColor"
  · cases view with
    | none => simp [h]
    | some w =>
      cases hr : (get_accent_color env (some w)).1 <;> simp [h, hr]
  · simp [h]

/-- Whenever the schema is found and the settings object is created, the key
is read, whether or not the schema defines it. -/
theorem gsettings_reads_key (env : Env) (widget : Option GtkWidget)
    (hsrc : env.schema_source = true) (hlk : env.schema_lookup schema_id = true)
    (hnew : env.settings_new schema_id = true) :
    Call.g_settings_get_string key ∈ (get_accent_color env widget).2 := by
  cases hread : g_settings_get_string env key with
  | none =>
    have hg := gsettings_abort env hsrc hlk hnew hread
    rw [get_accent_color_of_abort env widget (by rw [hg]), hg]
    simp
  | some v =>
    have hg := gsettings_schema_present env v hsrc hlk hnew hread
    by_cases h : (use_accent_color_str env v).1 = -1
    · rw [(get_accent_color_of_sentinel env widget (by rw [hg, h])).2, hg]
      simp
    · rw [get_accent_color_of_colour env widget _ (by rw [hg]) h, hg]
      simp

/-! ## The method-call handler -/

/-- C1: with a view present and a store whose schema
`org.gnome.desktop.interface` is installed without the key `accent-color`, a
call of `getAccentColor` gets no response at all: the process aborts in the
read of the key, which is the last call of the trace. -/
theorem handler_aborts_on_undefined_key (answer : Option String) (w : GtkWidget) :
    dynamic_color_plugin_handle_method_call (env_key_undefined answer) (some w)
        "getAccentColor"
      = (none,
          [Call.g_settings_schema_source_get_default,
           Call.g_settings_schema_source_lookup schema_id,
           Call.g_settings_new schema_id,
           Call.g_settings_schema_source_lookup schema_id,
           Call.g_settings_get_string key]) := by
  have hg := gsettings_abort (env_key_undefined answer) rfl rfl rfl rfl
  have ha := get_accent_color_of_abort (env_key_undefined answer) (some w) (by rw [hg])
  rw [hg] at ha
  unfold dynamic_color_plugin_handle_method_call
  simp only [if_true, ha]

/-- C2: with no view, the value handed to `fl_value_new_int` is the unsigned
constant `0xFF673AB7 = 4284955319`, which is above `2^31 - 1`. -/
theorem view_absent_payload_exceeds_int32 (env : Env) :
    (dynamic_color_plugin_handle_method_call env none "getAccentColor").1
      = some (FlMethodResponse.success 4284955319) ∧
    ¬ ((4284955319 : Int) ≤ 2147483647) := by
  constructor
  · unfold dynamic_color_plugin_handle_method_call
    simp only [if_true]
    have : fl_value_new_int FALLBACK_COLOR = 4284955319 := by decide
    rw [this]
  · decide

/-- C4: with no view the payload is `4284955319`, whereas with a view and both
lookups failing the payload is `-10011977`; the two integers differ. -/
theorem view_absent_payload_differs_from_default_path (env : Env) :
    (dynamic_color_plugin_handle_method_call env none "getAccentColor").1
      = some (FlMethodResponse.success 4284955319) ∧
    (dynamic_color_plugin_handle_method_call env_no_source (some widget_no_tokens)
        "getAccentColor").1 = some (FlMethodResponse.success (-10011977)) ∧
    (4284955319 : Int) ≠ -10011977 := by
  refine ⟨?_, ?_, by decide⟩
  · unfold dynamic_color_plugin_handle_method_call
    simp only [if_true]
    have : fl_value_new_int FALLBACK_COLOR = 4284955319 := by decide
    rw [this]
  · have hs : (get_accent_color_gsettings env_no_source).1 = some (-1) :=
      (gsettings_schema_absent env_no_source (Or.inl rfl)).1
    have hf : get_accent_color_gtk_fallback (some widget_no_tokens)
        = (wrap32 FALLBACK_COLOR, [Call.gtk_widget_get_style_context,
           Call.gtk_style_context_lookup_color "accent_color",
           Call.gtk_style_context_lookup_color "theme_selected_bg_color"]) := rfl
    have hr : (get_accent_color env_no_source (some widget_no_tokens)).1
        = some (-10011977) := by
      rw [(get_accent_color_of_sentinel _ _ hs).1]
      unfold theme_then_default
      rw [hf, wrap32_FALLBACK_COLOR]
      decide
    unfold dynamic_color_plugin_handle_method_call
    simp only [if_true, hr]
    decide

/-! ## The packed conversion -/

/-- C5 (as stated, refuted): the double `0.3` is a channel value in `[0, 1]`
whose exact product with 255 rounds to 76, while the red byte of
`rgba_to_argb` is 77, because the double product is exactly `76.5`. -/
theorem exact_rounding_differs_at_0_3 :
    (GdkRGBA.mk double_0_3 0 0 1).valid ∧
    round_double double_0_3 = double_0_3 ∧
    round_half_away ((GdkRGBA.mk double_0_3 0 0 1).red * 255) = 76 ∧
    round_double ((GdkRGBA.mk double_0_3 0 0 1).red * 255) = 153 / 2 ∧
    unpack_r (rgba_to_argb (GdkRGBA.mk double_0_3 0 0 1)) = 77 := by
  have hv : (GdkRGBA.mk double_0_3 0 0 1).valid := by
    unfold GdkRGBA.valid double_0_3
    norm_num
  refine ⟨hv, round_double_0_3, exact_0_3, round_double_0_3_mul, ?_⟩
  have h := (unpack_rgba_to_argb _ hv).2.2.2.2.2.1
  rw [h]
  unfold quantise
  simp only
  rw [lround_0_3]
  rfl

/-- C5 (amended): for a colour with channels in `[0, 1]`, the bytes of
`rgba_to_argb`, from most to least significant, are `lround` of the double
product `channel * 255` for alpha, red, green, blue; each lies in `0..255`;
and a channel that is the double nearest `k / 255` unpacks to `k`. -/
theorem rgba_to_argb_unpack :
    (∀ c : GdkRGBA, c.valid →
      ((unpack_a (rgba_to_argb c) : Int) = lround (round_double (c.alpha * 255)) ∧
       (unpack_r (rgba_to_argb c) : Int) = lround (round_double (c.red * 255)) ∧
       (unpack_g (rgba_to_argb c) : Int) = lround (round_double (c.green * 255)) ∧
       (unpack_b (rgba_to_argb c) : Int) = lround (round_double (c.blue * 255))) ∧
      (unpack_a (rgba_to_argb c) ≤ 255 ∧ unpack_r (rgba_to_argb c) ≤ 255 ∧
       unpack_g (rgba_to_argb c) ≤ 255 ∧ unpack_b (rgba_to_argb c) ≤ 255) ∧
      bits32 (rgba_to_argb c)
        = unpack_a (rgba_to_argb c) * 2 ^ 24 + unpack_r (rgba_to_argb c) * 2 ^ 16
          + unpack_g (rgba_to_argb c) * 2 ^ 8 + unpack_b (rgba_to_argb c)) ∧
    (∀ r g b a : Nat, r ≤ 255 → g ≤ 255 → b ≤ 255 → a ≤ 255 →
      unpack_a (rgba_to_argb (GdkRGBA.ofBytes r g b a)) = a ∧
      unpack_r (rgba_to_argb (GdkRGBA.ofBytes r g b a)) = r ∧
      unpack_g (rgba_to_argb (GdkRGBA.ofBytes r g b a)) = g ∧
      unpack_b (rgba_to_argb (GdkRGBA.ofBytes r g b a)) = b) := by
  constructor
  · intro c h
    obtain ⟨ha, hr, hg, hb, ua, ur, ug, ub⟩ := unpack_rgba_to_argb c h
    refine ⟨?_, ?_, ?_⟩
    · rw [ua, ur, ug, ub, ha.1, hr.1, hg.1, hb.1]
      exact ⟨rfl, rfl, rfl, rfl⟩
    · rw [ua, ur, ug, ub]
      exact ⟨ha.2, hr.2, hg.2, hb.2⟩
    · rw [ua, ur, ug, ub, bits32_rgba_to_argb c h]
      norm_num
  · intro r g b a hr hg hb ha
    obtain ⟨_, _, _, _, ua, ur, ug, ub⟩ :=
      unpack_rgba_to_argb _ (ofBytes_valid r g b a hr hg hb ha)
    rw [ua, ur, ug, ub]
    simp [GdkRGBA.ofBytes, quantise_level _ hr, quantise_level _ hg, quantise_level _ hb,
      quantise_level _ ha]

/-- C5 (amended) at the colour R = 0.3, G = 0, B = 0, A = 1, whose red byte is
`lround 76.5 = 77`, and at the byte levels `0x33, 0x11, 0xEE, 0xAA`. -/
theorem rgba_to_argb_unpack_witness :
    (GdkRGBA.mk double_0_3 0 0 1).valid ∧
    (unpack_r (rgba_to_argb (GdkRGBA.mk double_0_3 0 0 1)) : Int)
      = lround (round_double (double_0_3 * 255)) ∧
    lround (round_double (double_0_3 * 255)) = 77 ∧
    unpack_a (rgba_to_argb (GdkRGBA.mk double_0_3 0 0 1)) ≤ 255 ∧
    unpack_a (rgba_to_argb (GdkRGBA.ofBytes 0x33 0x11 0xEE 0xAA)) = 0xAA ∧
    unpack_r (rgba_to_argb (GdkRGBA.ofBytes 0x33 0x11 0xEE 0xAA)) = 0x33 ∧
    unpack_g (rgba_to_argb (GdkRGBA.ofBytes 0x33 0x11 0xEE 0xAA)) = 0x11 ∧
    unpack_b (rgba_to_argb (GdkRGBA.ofBytes 0x33 0x11 0xEE 0xAA)) = 0xEE := by
  have hv : (GdkRGBA.mk double_0_3 0 0 1).valid := by
    unfold GdkRGBA.valid double_0_3
    norm_num
  have h1 := rgba_to_argb_unpack.1 (GdkRGBA.mk double_0_3 0 0 1) hv
  have h2 := rgba_to_argb_unpack.2 0x33 0x11 0xEE 0xAA (by decide) (by decide) (by decide)
    (by decide)
  exact ⟨hv, h1.1.2.1, lround_0_3, h1.2.1.1, h2⟩

/-! ## The settings tier -/

/-- C6: in a store whose schema `org.gnome.desktop.interface` is installed
without the key `accent-color`, `get_accent_color` still reads that key: the
second test repeats the schema lookup instead of asking for the key. -/
theorem key_read_without_key_check (answer : Option String) (widget : Option GtkWidget) :
    (env_key_undefined answer).schema_has_key schema_id key = false ∧
    Call.g_settings_get_string key ∈ (get_accent_color (env_key_undefined answer) widget).2 :=
  ⟨rfl, gsettings_reads_key (env_key_undefined answer) widget rfl rfl rfl⟩

/-- C7: when there is no default schema source, or the schema is not found in
it, no settings object is created, no key is read, and the result is the one
of the theme tier followed by the default. -/
theorem schema_absent_skips_settings (env : Env) (widget : Option GtkWidget)
    (h : env.schema_source = false ∨ env.schema_lookup schema_id = false) :
    (∀ s, Call.g_settings_new s ∉ (get_accent_color env widget).2) ∧
    (∀ k, Call.g_settings_get_string k ∉ (get_accent_color env widget).2) ∧
    (get_accent_color env widget).1
      = some (if (get_accent_color_gtk_fallback widget).1 = -1 then wrap32 FALLBACK_COLOR
         else (get_accent_color_gtk_fallback widget).1) := by
  obtain ⟨hs, ht⟩ := gsettings_schema_absent env h
  obtain ⟨hr, htr⟩ := get_accent_color_of_sentinel env widget hs
  have hfb : (∀ s, Call.g_settings_new s ∉ (get_accent_color_gtk_fallback widget).2) ∧
      (∀ k, Call.g_settings_get_string k ∉ (get_accent_color_gtk_fallback widget).2) := by
    unfold get_accent_color_gtk_fallback
    cases widget with
    | none => simp
    | some w =>
      simp only
      cases w.lookup_color "accent_color" with
      | some c => simp
      | none => cases w.lookup_color "theme_selected_bg_color" <;> simp
  refine ⟨?_, ?_, ?_⟩
  · intro s
    rw [htr]
    rcases ht with ht | ht <;> rw [ht] <;> simp [hfb.1 s]
  · intro k
    rw [htr]
    rcases ht with ht | ht <;> rw [ht] <;> simp [hfb.2 k]
  · rw [hr]; rfl

/-- C7 with no schema source and a theme that defines `accent_color` as blue. -/
theorem schema_absent_skips_settings_witness :
    env_no_source.schema_source = false ∧
    Call.g_settings_new schema_id ∉
      (get_accent_color env_no_source (some (widget_accent blue))).2 ∧
    Call.g_settings_get_string key ∉
      (get_accent_color env_no_source (some (widget_accent blue))).2 ∧
    (get_accent_color env_no_source (some (widget_accent blue))).1
      = some (if (get_accent_color_gtk_fallback (some (widget_accent blue))).1 = -1
         then wrap32 FALLBACK_COLOR
         else (get_accent_color_gtk_fallback (some (widget_accent blue))).1) :=
  ⟨rfl,
   (schema_absent_skips_settings env_no_source (some (widget_accent blue)) (Or.inl rfl)).1
      schema_id,
   (schema_absent_skips_settings env_no_source (some (widget_accent blue)) (Or.inl rfl)).2.1
      key,
   (schema_absent_skips_settings env_no_source (some (widget_accent blue)) (Or.inl rfl)).2.2⟩

/-- C8: when the schema is present and the value read is null, empty, or
rejected by the parser, the result is the one of the theme tier followed by the
default, equal to the result for the same widget in any environment without
the schema; for a null or empty value the parser is never called. -/
theorem unusable_value_falls_through (env : Env) (widget : Option GtkWidget)
    (hsrc : env.schema_source = true) (hlk : env.schema_lookup schema_id = true)
    (h : g_settings_get_string env key = some none ∨
      g_settings_get_string env key = some (some "") ∨
      ∃ s, g_settings_get_string env key = some (some s) ∧ env.gdk_rgba_parse s = none) :
    (get_accent_color env widget).1
      = some (if (get_accent_color_gtk_fallback widget).1 = -1 then wrap32 FALLBACK_COLOR
         else (get_accent_color_gtk_fallback widget).1) ∧
    (∀ env0 : Env, (env0.schema_source = false ∨ env0.schema_lookup schema_id = false) →
      (get_accent_color env widget).1 = (get_accent_color env0 widget).1) ∧
    ((g_settings_get_string env key = some none ∨
        g_settings_get_string env key = some (some "")) →
      ∀ s, Call.gdk_rgba_parse s ∉ (get_accent_color env widget).2) := by
  have hfb : ∀ s, Call.gdk_rgba_parse s ∉ (get_accent_color_gtk_fallback widget).2 := by
    intro s
    unfold get_accent_color_gtk_fallback
    cases widget with
    | none => simp
    | some w =>
      simp only
      cases w.lookup_color "accent_color" with
      | some c => simp
      | none => cases w.lookup_color "theme_selected_bg_color" <;> simp
  obtain ⟨v, hv, hun⟩ : ∃ v, g_settings_get_string env key = some v ∧
      (v = none ∨ v = some "" ∨ ∃ s, v = some s ∧ env.gdk_rgba_parse s = none) := by
    rcases h with h | h | ⟨s, h, hp⟩
    · exact ⟨none, h, Or.inl rfl⟩
    · exact ⟨some "", h, Or.inr (Or.inl rfl)⟩
    · exact ⟨some s, h, Or.inr (Or.inr ⟨s, rfl, hp⟩)⟩
  have hs : (get_accent_color_gsettings env).1 = some (-1) := by
    cases hnew : env.settings_new schema_id with
    | false => rw [gsettings_no_settings env hsrc hlk hnew]
    | true =>
      rw [gsettings_schema_present env v hsrc hlk hnew hv,
        use_accent_color_str_unusable env v hun]
  obtain ⟨hr, htr⟩ := get_accent_color_of_sentinel env widget hs
  refine ⟨by rw [hr]; rfl, ?_, ?_⟩
  · intro env0 h0
    rw [hr, (get_accent_color_of_sentinel env0 widget (gsettings_schema_absent env0 h0).1).1]
  · intro hne s
    have hv2 : v = none ∨ v = some "" := by
      rcases hne with e | e
      · rw [hv] at e
        exact Or.inl (Option.some.inj e)
      · rw [hv] at e
        exact Or.inr (Option.some.inj e)
    rw [htr]
    cases hnew : env.settings_new schema_id with
    | false =>
      rw [gsettings_no_settings env hsrc hlk hnew]
      simp [hfb s]
    | true =>
      rw [gsettings_schema_present env v hsrc hlk hnew hv]
      have := use_accent_color_str_no_parse env v hv2 s
      simp [hfb s, this]

/-- C8 with the empty string in the store and a theme that defines
`accent_color` as blue: the result is the one obtained without any schema, and
the parser is not called. -/
theorem unusable_value_falls_through_witness :
    g_settings_get_string (env_value (some "") "white" white) key = some (some "") ∧
    (get_accent_color (env_value (some "") "white" white) (some (widget_accent blue))).1
      = (get_accent_color env_no_source (some (widget_accent blue))).1 ∧
    Call.gdk_rgba_parse "" ∉
      (get_accent_color (env_value (some "") "white" white) (some (widget_accent blue))).2 :=
  ⟨rfl,
   (unusable_value_falls_through (env_value (some "") "white" white)
      (some (widget_accent blue)) rfl rfl (Or.inr (Or.inl rfl))).2.1 env_no_source
      (Or.inl rfl),
   (unusable_value_falls_through (env_value (some "") "white" white)
      (some (widget_accent blue)) rfl rfl (Or.inr (Or.inl rfl))).2.2 (Or.inr rfl) ""⟩

/-! ## The theme tier -/

/-- C9: for a widget, `accent_color` wins when defined, else
`theme_selected_bg_color` when defined, else the default `0xFF673AB7` as an
`int`; for a null widget the default is returned and no call is made. -/
theorem gtk_fallback_priority (w : GtkWidget) :
    (∀ c, w.lookup_color "accent_color" = some c →
      (get_accent_color_gtk_fallback (some w)).1 = rgba_to_argb c) ∧
    (∀ c, w.lookup_color "accent_color" = none →
      w.lookup_color "theme_selected_bg_color" = some c →
      (get_accent_color_gtk_fallback (some w)).1 = rgba_to_argb c) ∧
    (w.lookup_color "accent_color" = none →
      w.lookup_color "theme_selected_bg_color" = none →
      (get_accent_color_gtk_fallback (some w)).1 = wrap32 FALLBACK_COLOR) ∧
    get_accent_color_gtk_fallback none = (wrap32 FALLBACK_COLOR, []) ∧
    wrap32 FALLBACK_COLOR = -10011977 ∧
    bits32 (wrap32 FALLBACK_COLOR) = 0xFF673AB7 := by
  refine ⟨?_, ?_, ?_, rfl, by decide, by decide⟩
  · intro c h
    unfold get_accent_color_gtk_fallback
    simp [h]
  · intro c h1 h2
    unfold get_accent_color_gtk_fallback
    simp [h1, h2]
  · intro h1 h2
    unfold get_accent_color_gtk_fallback
    simp [h1, h2]

/-- C9 at three themes: both tokens defined, only the secondary one, none. -/
theorem gtk_fallback_priority_witness :
    (get_accent_color_gtk_fallback (some (widget_both blue white))).1 = rgba_to_argb blue ∧
    (get_accent_color_gtk_fallback (some (widget_selected blue))).1 = rgba_to_argb blue ∧
    (get_accent_color_gtk_fallback (some widget_no_tokens)).1 = wrap32 FALLBACK_COLOR :=
  ⟨(gtk_fallback_priority (widget_both blue white)).1 blue rfl,
   (gtk_fallback_priority (widget_selected blue)).2.1 blue rfl rfl,
   (gtk_fallback_priority widget_no_tokens).2.2.1 rfl rfl⟩

/-! ## The sentinel -/

/-- C10: `get_accent_color` never returns `-1`; a settings colour that packs
to `-1` is dropped and the result is the one of the theme tier followed by the
default; and when the theme tier is used and its colour packs to `-1`, the
result is the default `0xFF673AB7` as an `int`. -/
theorem get_accent_color_ne_sentinel (env : Env) (widget : Option GtkWidget) :
    (get_accent_color env widget).1 ≠ some (-1) ∧
    (∀ s c, env.schema_source = true → env.schema_lookup schema_id = true →
      env.settings_new schema_id = true →
      g_settings_get_string env key = some (some s) → s ≠ "" →
      env.gdk_rgba_parse s = some c → rgba_to_argb c = -1 →
      (get_accent_color env widget).1
        = some (if (get_accent_color_gtk_fallback widget).1 = -1 then wrap32 FALLBACK_COLOR
           else (get_accent_color_gtk_fallback widget).1)) ∧
    ((get_accent_color_gsettings env).1 = some (-1) →
      (get_accent_color_gtk_fallback widget).1 = -1 →
      (get_accent_color env widget).1 = some (wrap32 FALLBACK_COLOR)) ∧
    wrap32 FALLBACK_COLOR = -10011977 := by
  refine ⟨?_, ?_, ?_, by decide⟩
  · cases hs : (get_accent_color_gsettings env).1 with
    | none =>
      rw [get_accent_color_of_abort env widget hs]
      simp
    | some r =>
      by_cases hr : r = -1
      · subst hr
        rw [(get_accent_color_of_sentinel env widget hs).1]
        intro e
        exact theme_then_default_ne_sentinel widget (Option.some.inj e)
      · rw [get_accent_color_of_colour env widget r hs hr]
        intro e
        exact hr (Option.some.inj e)
  · intro s c hsrc hlk hnew hval hne hparse hsent
    have hg := gsettings_schema_present env (some s) hsrc hlk hnew hval
    rw [use_accent_color_str_parsed env s c hne hparse] at hg
    have h1 : (get_accent_color_gsettings env).1 = some (-1) := by rw [hg, hsent]
    rw [(get_accent_color_of_sentinel env widget h1).1]
    rfl
  · intro h1 h2
    rw [(get_accent_color_of_sentinel env widget h1).1]
    unfold theme_then_default
    rw [if_pos h2]

/-- C10 with `"white"` in the store: under a blue theme the result is blue, and
under a white theme the result is the default `-10011977`. -/
theorem get_accent_color_ne_sentinel_witness :
    rgba_to_argb white = -1 ∧
    (get_accent_color env_white (some (widget_accent blue))).1 = some (-16776961) ∧
    (get_accent_color env_white (some (widget_accent white))).1 = some (-10011977) := by
  have hw := rgba_to_argb_white
  have hb := rgba_to_argb_blue
  have hfb : (get_accent_color_gtk_fallback (some (widget_accent blue))).1
      = rgba_to_argb blue := rfl
  have hfw : (get_accent_color_gtk_fallback (some (widget_accent white))).1
      = rgba_to_argb white := rfl
  have h1 := (get_accent_color_ne_sentinel env_white (some (widget_accent blue))).2.1
    "white" white rfl rfl rfl rfl (by decide) rfl hw
  have hs : (get_accent_color_gsettings env_white).1 = some (-1) := by
    rw [gsettings_schema_present env_white (some "white") rfl rfl rfl rfl,
      use_accent_color_str_parsed env_white "white" white (by decide) rfl, hw]
  have h2 := (get_accent_color_ne_sentinel env_white (some (widget_accent white))).2.2.1
    hs (by rw [hfw]; exact hw)
  refine ⟨hw, ?_, ?_⟩
  · rw [h1, hfb, hb]; decide
  · rw [h2]; decide

end DynamicColor
